import Mathlib

/-!
# Verification of the notification dispatcher

Shallow embedding of the multi-channel notification dispatcher:
`celery_app/tasks.py` (orchestrator `send_notification`, channel selector
`_get_available_channels`, per-channel dispatch `_send_by_channel`,
notification lifecycle `_get_or_create_notification`) and
`notification_app/services/services.py` (`NotificationService.send_email`,
`send_sms`, `send_telegram`), over the data model of
`notification_app/models.py`.

Modelling conventions:
- Optional / nullable text fields (Django `CharField(blank=True, null=True)`,
  settings values) are `String`, with `""` standing for absent/None; Python
  truthiness of such a value is `≠ ""`.
- Channel names are the strings of `NotificationChannel` (`TextChoices`).
- Transport calls (SMTP, Twilio, Telegram HTTP) are oracles: an inductive
  outcome value supplied as an argument, covering success and every
  exception class the source distinguishes.
- The database is an explicit record of lists; Django `objects.get` /
  `objects.create` / `save` become lookups and functional updates on it.
- Python exceptions that the source does NOT catch surface as
  `Except PyException`; exceptions the source catches are folded into the
  result values, exactly as the `try/except` blocks do.
-/

namespace Notify

/-- `NotificationChannel` of models.py: the closed string enumeration. -/
def NotificationChannel.EMAIL : String := "email"

/-- `NotificationChannel.SMS` of models.py. -/
def NotificationChannel.SMS : String := "sms"

/-- `NotificationChannel.TELEGRAM` of models.py. -/
def NotificationChannel.TELEGRAM : String := "telegram"

/-- `UserProfile` of models.py: per-channel contact identifiers.
`""` models an absent (null/blank) field. -/
structure UserProfile where
  email : String
  phone_number : String
  telegram_chat_id : String
deriving Repr, DecidableEq

/-- `Notification` of models.py (the `created_at` timestamp is omitted:
no claim mentions it). `is_delivered` defaults to `false` on creation. -/
structure Notification where
  id : Nat
  user_id : Nat
  title : String
  message : String
  is_delivered : Bool
deriving Repr, DecidableEq

/-- `NotificationLog` of models.py: one immutable delivery-attempt record
(`created_at` omitted). -/
structure NotificationLog where
  notification_id : Nat
  channel : String
  status : Bool
  error_message : Option String
deriving Repr, DecidableEq

/-- `_get_available_channels` of tasks.py: fixed order email, sms, telegram;
a channel is appended iff its profile field is truthy (non-empty). -/
def _get_available_channels (profile : UserProfile) : List String :=
  (if profile.email ≠ "" then [NotificationChannel.EMAIL] else []) ++
  (if profile.phone_number ≠ "" then [NotificationChannel.SMS] else []) ++
  (if profile.telegram_chat_id ≠ "" then [NotificationChannel.TELEGRAM] else [])

/-! ## The email address pattern

`re.match(r"[^@]+@[^@]+\.[^@]+", email)` in services.py: a match anchored at
the start (a prefix of the string suffices). Since `[^@]` never matches `@`,
the pattern's `@` must align with the FIRST `@` of the string; after it the
pattern needs, inside the run of non-`@` characters, a `.` at offset ≥ 1
followed by at least one more non-`@` character. -/

/-- Scans a list of non-`@` characters for a `.` that is followed by at
least one character (the `\.[^@]+` tail of the pattern). -/
def dotThenChar : List Char → Bool
  | [] => false
  | c :: rest => (c = '.' && rest ≠ []) || dotThenChar rest

/-- `re.match(r"[^@]+@[^@]+\.[^@]+", s) is not None`, computed directly. -/
def email_regex_match (s : String) : Bool :=
  let before := s.data.takeWhile (fun c => c ≠ '@')
  let after := s.data.drop (before.length + 1)
  if before.length = 0 ∨ before.length = s.data.length then false
  else
    let u := after.takeWhile (fun c => c ≠ '@')
    match u with
    | [] => false
    | _ :: rest => dotThenChar rest

/-- Django settings used by the three senders; `""` models an
unset/None/empty value (falsy in the source's checks). -/
structure Settings where
  EMAIL_HOST : String
  EMAIL_HOST_USER : String
  DEFAULT_FROM_EMAIL : String
  TWILIO_ACCOUNT_SID : String
  TWILIO_AUTH_TOKEN : String
  TWILIO_PHONE_NUMBER : String
  TELEGRAM_BOT_TOKEN : String
deriving Repr, DecidableEq

/-- Outcome oracle for `django.core.mail.send_mail`: either the call
returns, or it raises an exception whose text is `msg`. -/
inductive MailOutcome where
  | sent
  | exn (msg : String)
deriving Repr, DecidableEq

/-- Outcome oracle for the Twilio `client.messages.create` call:
success, a `TwilioRestException` carrying `e.msg`, or any other
exception carrying `str(e)`. -/
inductive SmsOutcome where
  | sent
  | twilioError (msg : String)
  | exn (msg : String)
deriving Repr, DecidableEq

/-- Outcome oracle for the Telegram HTTP POST: a `requests.RequestException`
(timeout, connection error, or the non-2xx raised by `raise_for_status`);
a 2xx response whose JSON has `ok` true; a 2xx response whose JSON has `ok`
false/absent, with an optional `description` field; or any other exception
(e.g. JSON decoding) carrying `str(e)`. -/
inductive TelegramOutcome where
  | requestException (msg : String)
  | ok
  | notOk (description : Option String)
  | exn (msg : String)
deriving Repr, DecidableEq

namespace NotificationService

/-- `NotificationService.send_email` of services.py. Validation and
configuration checks run before the transport oracle is consulted; the
surrounding `try/except Exception` turns any transport exception into a
`(False, str(e))` result. -/
def send_email (settings : Settings) (mail : MailOutcome)
    (email title message : String) : Bool × Option String :=
  let _ := title
  let _ := message
  if email = "" ∨ email_regex_match email = false then
    (false, some "Некорректный email-адрес")
  else if settings.EMAIL_HOST = "" ∨ settings.EMAIL_HOST = "smtp.example.com"
      ∨ settings.EMAIL_HOST_USER = "" then
    (false, some "Настройки SMTP сервера не настроены")
  else
    match mail with
    | .sent => (true, none)
    | .exn e => (false, some e)

/-- `NotificationService.send_sms` of services.py. `re.sub(r'\D', '', phone)`
keeps exactly the digit characters; fewer than 10 remaining digits is a
validation failure. The three Twilio settings are checked before the
transport oracle. -/
def send_sms (settings : Settings) (sms : SmsOutcome)
    (phone message : String) : Bool × Option String :=
  let _ := message
  if phone = "" then
    (false, some "Номер телефона не указан")
  else
    let phone_cleaned := phone.data.filter Char.isDigit
    if phone_cleaned.length < 10 then
      (false, some ("Некорректный формат номера: " ++ phone))
    else if settings.TWILIO_ACCOUNT_SID = "" ∨ settings.TWILIO_AUTH_TOKEN = ""
        ∨ settings.TWILIO_PHONE_NUMBER = "" then
      (false, some "Не настроены параметры Twilio SMS-сервиса")
    else
      match sms with
      | .sent => (true, none)
      | .twilioError e => (false, some ("Ошибка Twilio: " ++ e))
      | .exn e => (false, some e)

/-- `NotificationService.send_telegram` of services.py. A non-empty chat id
and the bot token are checked before the HTTP oracle; HTTP-level failures
become `"Ошибка сервиса Telegram: " ++ msg`; a 2xx response without
`ok: true` yields its `description`, defaulting to `"Неизвестная ошибка"`. -/
def send_telegram (settings : Settings) (tg : TelegramOutcome)
    (chat_id message : String) : Bool × Option String :=
  let _ := message
  if chat_id = "" then
    (false, some "ID чата Telegram не указан")
  else if settings.TELEGRAM_BOT_TOKEN = "" then
    (false, some "Не настроен токен Telegram бота")
  else
    match tg with
    | .requestException e => (false, some ("Ошибка сервиса Telegram: " ++ e))
    | .ok => (true, none)
    | .notOk (some d) => (false, some d)
    | .notOk none => (false, some "Неизвестная ошибка")
    | .exn e => (false, some e)

end NotificationService

/-- The ambient environment of one dispatch: the Django settings plus one
transport-outcome oracle per channel kind. -/
structure SendEnv where
  settings : Settings
  mail : MailOutcome
  sms : SmsOutcome
  telegram : TelegramOutcome
deriving Repr, DecidableEq

/-- `_send_by_channel` of tasks.py: string-keyed dispatch to the three
senders, each guarded by a truthiness check of the profile field; any other
string yields the unknown-channel failure. -/
def _send_by_channel (env : SendEnv) (channel : String) (profile : UserProfile)
    (title message : String) : Bool × Option String :=
  if channel = NotificationChannel.EMAIL then
    if profile.email = "" then (false, some "Email пользователя не указан")
    else NotificationService.send_email env.settings env.mail profile.email title message
  else if channel = NotificationChannel.SMS then
    if profile.phone_number = "" then (false, some "Номер телефона пользователя не указан")
    else NotificationService.send_sms env.settings env.sms profile.phone_number message
  else if channel = NotificationChannel.TELEGRAM then
    if profile.telegram_chat_id = "" then (false, some "Telegram ID пользователя не указан")
    else NotificationService.send_telegram env.settings env.telegram profile.telegram_chat_id message
  else
    (false, some ("Неизвестный канал отправки: " ++ channel))

/-- A Python exception class that the source code does NOT catch and that
therefore propagates out of `send_notification`. -/
inductive PyException where
  | attributeError
  | integrityError
deriving Repr, DecidableEq

/-- The database visible to the orchestrator: `auth_user` ids, the
`UserProfile` table keyed by user id, the `Notification` table and the
append-only `NotificationLog` table, plus the next auto-increment id. -/
structure Db where
  users : List Nat
  profiles : List (Nat × UserProfile)
  notifications : List Notification
  logs : List NotificationLog
  next_id : Nat
deriving Repr, DecidableEq

/-- `Notification.objects.create(user=user, title=title, message=message)`:
a fresh row with the auto-increment id and the default `is_delivered=False`. -/
def createNotification (db : Db) (user_id : Nat) (title message : String) :
    Notification × Db :=
  let n : Notification :=
    { id := db.next_id, user_id := user_id, title := title,
      message := message, is_delivered := false }
  (n, { db with notifications := db.notifications ++ [n], next_id := db.next_id + 1 })

/-- `_get_or_create_notification` of tasks.py. `if notification_id:` is
Python truthiness, so `None` and `0` both fall through to creation; a truthy
id that does not resolve returns `None` (modelled as `none`) without
creating anything. -/
def _get_or_create_notification (db : Db) (user_id : Nat) (title message : String)
    (notification_id : Option Nat) : Option Notification × Db :=
  match notification_id with
  | some nid =>
    if nid ≠ 0 then
      (db.notifications.find? (fun n => n.id == nid), db)
    else
      let (n, db) := createNotification db user_id title message
      (some n, db)
  | none =>
    let (n, db) := createNotification db user_id title message
    (some n, db)

/-- `notification.is_delivered = v; notification.save()`: update the stored
row(s) with this id. -/
def setDelivered (db : Db) (nid : Nat) (v : Bool) : Db :=
  { db with notifications :=
      db.notifications.map (fun n => if n.id == nid then { n with is_delivered := v } else n) }

/-- The result dictionary returned by `send_notification`
(`status`, optional `notification_id`, optional `channel`, optional
`message`). -/
structure DispatchResult where
  status : String
  notification_id : Option Nat
  channel : Option String
  message : Option String
deriving Repr, DecidableEq

/-- The `for channel in priority_channels:` loop of `send_notification`
(tasks.py lines 62–81), parametrised by the sender function the source calls
(`_send_by_channel` with its environment). Each iteration calls the sender,
appends one `NotificationLog` row, and stops at the first success; after an
exhausted list the delivered flag is persisted as false. When `notifOpt` is
`none` (a truthy `notification_id` that did not resolve), the
`NotificationLog.objects.create(notification=None, ...)` violates the
non-null foreign key and raises, and on the exhausted path
`notification.is_delivered = False` on `None` raises: both are uncaught. -/
def sendLoop (sendFn : String → UserProfile → String → String → Bool × Option String)
    (profile : UserProfile) (title message : String) (notifOpt : Option Notification)
    (db : Db) : List String → Db × Except PyException DispatchResult
  | [] =>
    match notifOpt with
    | none => (db, .error .attributeError)
    | some notif =>
      (setDelivered db notif.id false,
       .ok { status := "error", notification_id := some notif.id, channel := none,
             message := some "Не удалось доставить ни по одному каналу" })
  | channel :: rest =>
    let r := sendFn channel profile title message
    match notifOpt with
    | none => (db, .error .integrityError)
    | some notif =>
      let db := { db with logs := db.logs ++
        [{ notification_id := notif.id, channel := channel,
           status := r.1, error_message := r.2 }] }
      if r.1 then
        (setDelivered db notif.id true,
         .ok { status := "success", notification_id := some notif.id,
               channel := some channel, message := none })
      else
        sendLoop sendFn profile title message notifOpt db rest

/-- `priority_channels = channels or _get_available_channels(profile)` of
tasks.py line 55: Python `or` treats `None` AND the empty list as falsy, so
both are replaced by the auto-selected channels. -/
def priorityChannels (profile : UserProfile) (channels : Option (List String)) :
    List String :=
  match channels with
  | some cs => if cs = [] then _get_available_channels profile else cs
  | none => _get_available_channels profile

/-- `send_notification` of tasks.py, parametrised by the sender function
(the source calls `_send_by_channel(channel, profile, title, message)`;
instantiate `sendFn := _send_by_channel env`). Returns the final database
and either the result dictionary or the uncaught Python exception. -/
def send_notification
    (sendFn : String → UserProfile → String → String → Bool × Option String)
    (db : Db) (user_id : Nat) (title message : String)
    (channels : Option (List String)) (notification_id : Option Nat) :
    Db × Except PyException DispatchResult :=
  if db.users.contains user_id = false then
    (db, .ok { status := "error", notification_id := none, channel := none,
               message := some ("Пользователь с ID " ++ toString user_id ++ " не найден") })
  else
    let (notifOpt, db) := _get_or_create_notification db user_id title message notification_id
    match db.profiles.find? (fun p => p.1 == user_id) with
    | none =>
      match notifOpt with
      | none => (db, .error .attributeError)
      | some notif =>
        (setDelivered db notif.id false,
         .ok { status := "error", notification_id := some notif.id, channel := none,
               message := some "Профиль пользователя не найден" })
    | some p =>
      let profile := p.2
      let priority_channels := priorityChannels profile channels
      if priority_channels = [] then
        match notifOpt with
        | none => (db, .error .attributeError)
        | some notif =>
          (setDelivered db notif.id false,
           .ok { status := "error", notification_id := some notif.id, channel := none,
                 message := some "Нет доступных каналов для отправки" })
      else
        sendLoop sendFn profile title message notifOpt db priority_channels

/-! ## Specification helpers

Pure descriptions of what the loop does, used to state the theorems; each is
justified against `sendLoop` by a proved lemma. -/

/-- The channels the loop actually tries: every channel up to and including
the first succeeding one (all of them when none succeeds). -/
def triedChannels (sendFn : String → UserProfile → String → String → Bool × Option String)
    (profile : UserProfile) (title message : String) : List String → List String
  | [] => []
  | ch :: rest =>
    if (sendFn ch profile title message).1 then [ch]
    else ch :: triedChannels sendFn profile title message rest

/-- The first channel of the list on which the sender reports success. -/
def firstSuccess (sendFn : String → UserProfile → String → String → Bool × Option String)
    (profile : UserProfile) (title message : String) : List String → Option String
  | [] => none
  | ch :: rest =>
    if (sendFn ch profile title message).1 then some ch
    else firstSuccess sendFn profile title message rest

/-- The `NotificationLog` row one loop iteration appends for `ch`. -/
def mkLog (sendFn : String → UserProfile → String → String → Bool × Option String)
    (profile : UserProfile) (title message : String) (nid : Nat) (ch : String) :
    NotificationLog :=
  { notification_id := nid, channel := ch,
    status := (sendFn ch profile title message).1,
    error_message := (sendFn ch profile title message).2 }

/-- Appending rows to the `NotificationLog` table. -/
def appendLogs (db : Db) (rows : List NotificationLog) : Db :=
  { db with logs := db.logs ++ rows }

/-! ## Helper lemmas -/

/-- `_get_or_create_notification` touches only the notification table and
the auto-increment counter. -/
theorem goc_preserves (db : Db) (u : Nat) (t m : String) (nid : Option Nat) :
    (_get_or_create_notification db u t m nid).2.users = db.users ∧
    (_get_or_create_notification db u t m nid).2.profiles = db.profiles ∧
    (_get_or_create_notification db u t m nid).2.logs = db.logs := by
  unfold _get_or_create_notification createNotification
  cases nid with
  | none => simp
  | some n =>
    by_cases h : n ≠ 0 <;> simp [h]

/-- A resolved notification is present in the resulting notification
table. -/
theorem goc_mem (db : Db) (u : Nat) (t m : String) (nid : Option Nat)
    (notif : Notification)
    (h : (_get_or_create_notification db u t m nid).1 = some notif) :
    notif ∈ (_get_or_create_notification db u t m nid).2.notifications := by
  unfold _get_or_create_notification createNotification at h ⊢
  cases nid with
  | none =>
    simp at h
    simp [← h]
  | some n =>
    by_cases hn : n ≠ 0
    · simp [hn] at h ⊢
      exact List.mem_of_find?_eq_some h
    · simp [hn] at h ⊢
      simp [← h]

/-- After `setDelivered`, the first row found with the given id carries the
written flag (provided some row with that id exists). -/
theorem find_setFlag (l : List Notification) (nid : Nat) (v : Bool)
    (h : ∃ n ∈ l, n.id = nid) :
    ∃ n, (l.map (fun x => if x.id == nid then { x with is_delivered := v } else x)).find?
        (fun x => x.id == nid) = some n ∧ n.is_delivered = v := by
  induction l with
  | nil => simp at h
  | cons a l ih =>
    by_cases ha : a.id = nid
    · refine ⟨{ a with is_delivered := v }, ?_, rfl⟩
      simp [List.find?, ha]
    · obtain ⟨n, hn, hid⟩ := h
      rcases List.mem_cons.mp hn with rfl | hmem
      · exact absurd hid ha
      · obtain ⟨n2, h2, hv⟩ := ih ⟨n, hmem, hid⟩
        refine ⟨n2, ?_, hv⟩
        have hfa : (if (a.id == nid) = true then { a with is_delivered := v } else a) = a := by
          simp [ha]
        rw [List.map_cons, hfa, List.find?_cons_of_neg, h2]
        simp [ha]

/-- When no channel succeeds, the loop tries the whole list. -/
theorem triedChannels_eq_self
    (sendFn : String → UserProfile → String → String → Bool × Option String)
    (profile : UserProfile) (t m : String) (chs : List String)
    (h : firstSuccess sendFn profile t m chs = none) :
    triedChannels sendFn profile t m chs = chs := by
  induction chs with
  | nil => rfl
  | cons ch rest ih =>
    unfold firstSuccess at h
    unfold triedChannels
    by_cases hc : (sendFn ch profile t m).1 = true
    · simp [hc] at h
    · simp [hc] at h ⊢
      exact ih h

/-- Every channel the sender rejects keeps `firstSuccess` empty. -/
theorem firstSuccess_eq_none
    (sendFn : String → UserProfile → String → String → Bool × Option String)
    (profile : UserProfile) (t m : String) (chs : List String)
    (h : ∀ ch ∈ chs, (sendFn ch profile t m).1 = false) :
    firstSuccess sendFn profile t m chs = none := by
  induction chs with
  | nil => rfl
  | cons ch rest ih =>
    unfold firstSuccess
    simp [h ch (by simp)]
    exact ih (fun c hc => h c (by simp [hc]))

/-- One failing iteration: the attempt is logged and the loop moves on to
the remaining channels. -/
theorem sendLoop_cons_fail
    (sendFn : String → UserProfile → String → String → Bool × Option String)
    (profile : UserProfile) (t m : String) (notif : Notification) (db : Db)
    (ch : String) (rest : List String)
    (h : (sendFn ch profile t m).1 = false) :
    sendLoop sendFn profile t m (some notif) db (ch :: rest) =
      sendLoop sendFn profile t m (some notif)
        (appendLogs db [mkLog sendFn profile t m notif.id ch]) rest := by
  simp [sendLoop, h, mkLog, appendLogs]

/-- One succeeding iteration: the attempt is logged, the delivered flag is
persisted as true, and the loop returns the success result at once. -/
theorem sendLoop_cons_succ
    (sendFn : String → UserProfile → String → String → Bool × Option String)
    (profile : UserProfile) (t m : String) (notif : Notification) (db : Db)
    (ch : String) (rest : List String)
    (h : (sendFn ch profile t m).1 = true) :
    sendLoop sendFn profile t m (some notif) db (ch :: rest) =
      (setDelivered (appendLogs db [mkLog sendFn profile t m notif.id ch]) notif.id true,
       .ok { status := "success", notification_id := some notif.id,
             channel := some ch, message := none }) := by
  simp [sendLoop, h, mkLog, appendLogs]

/-- Closed form of the delivery loop when the notification resolved: the
tried channels are logged in order, the delivered flag records whether any
succeeded, and the result names the first succeeding channel (or carries the
all-channels-failed error). -/
theorem sendLoop_closed
    (sendFn : String → UserProfile → String → String → Bool × Option String)
    (profile : UserProfile) (t m : String) (notif : Notification) :
    ∀ (chs : List String) (db : Db),
    sendLoop sendFn profile t m (some notif) db chs =
      match firstSuccess sendFn profile t m chs with
      | some ch =>
        (setDelivered
           (appendLogs db
             ((triedChannels sendFn profile t m chs).map (mkLog sendFn profile t m notif.id)))
           notif.id true,
         .ok { status := "success", notification_id := some notif.id,
               channel := some ch, message := none })
      | none =>
        (setDelivered
           (appendLogs db (chs.map (mkLog sendFn profile t m notif.id)))
           notif.id false,
         .ok { status := "error", notification_id := some notif.id, channel := none,
               message := some "Не удалось доставить ни по одному каналу" }) := by
  intro chs
  induction chs with
  | nil =>
    intro db
    simp [sendLoop, firstSuccess, appendLogs]
  | cons ch rest ih =>
    intro db
    by_cases hc : (sendFn ch profile t m).1 = true
    · rw [sendLoop_cons_succ sendFn profile t m notif db ch rest hc]
      simp [firstSuccess, triedChannels, hc, appendLogs]
    · have hc2 : (sendFn ch profile t m).1 = false := by
        revert hc
        cases (sendFn ch profile t m).1 <;> simp
      rw [sendLoop_cons_fail sendFn profile t m notif db ch rest hc2, ih]
      simp only [firstSuccess, triedChannels, hc2, Bool.false_eq_true, ite_false]
      cases hfs : firstSuccess sendFn profile t m rest with
      | some c => simp [mkLog, appendLogs]
      | none => simp [mkLog, appendLogs]

/-- Under the normal preconditions (user found, notification resolved,
profile found, non-empty effective channel list) the orchestrator reduces to
the delivery loop over the effective list. -/
theorem send_notification_run
    (sendFn : String → UserProfile → String → String → Bool × Option String)
    (db : Db) (uid : Nat) (t m : String) (nid : Option Nat)
    (chans : Option (List String)) (notif : Notification) (pr : Nat × UserProfile)
    (hu : db.users.contains uid = true)
    (hn : (_get_or_create_notification db uid t m nid).1 = some notif)
    (hp : db.profiles.find? (fun p => p.1 == uid) = some pr)
    (hne : priorityChannels pr.2 chans ≠ []) :
    send_notification sendFn db uid t m chans nid =
      sendLoop sendFn pr.2 t m (some notif)
        (_get_or_create_notification db uid t m nid).2
        (priorityChannels pr.2 chans) := by
  have hp2 := (goc_preserves db uid t m nid).2.1
  rcases hgoc : _get_or_create_notification db uid t m nid with ⟨o, db1⟩
  rw [hgoc] at hn hp2
  simp only at hn hp2
  subst hn
  have hu2 : uid ∈ db.users := by simpa using hu
  simp [send_notification, hgoc, hu2, hp2, hp, hne]

/-- When the user is present and the notification resolves but the profile
lookup fails, the orchestrator marks the notification undelivered and
returns the profile-missing error without touching the logs. -/
theorem send_notification_no_profile
    (sendFn : String → UserProfile → String → String → Bool × Option String)
    (db : Db) (uid : Nat) (t m : String) (nid : Option Nat)
    (chans : Option (List String)) (notif : Notification)
    (hu : db.users.contains uid = true)
    (hn : (_get_or_create_notification db uid t m nid).1 = some notif)
    (hp : db.profiles.find? (fun p => p.1 == uid) = none) :
    send_notification sendFn db uid t m chans nid =
      (setDelivered (_get_or_create_notification db uid t m nid).2 notif.id false,
       Except.ok { status := "error", notification_id := some notif.id, channel := none,
                   message := some "Профиль пользователя не найден" }) := by
  have hp2 := (goc_preserves db uid t m nid).2.1
  rcases hgoc : _get_or_create_notification db uid t m nid with ⟨o, db1⟩
  rw [hgoc] at hn hp2
  simp only at hn hp2
  subst hn
  have hu2 : uid ∈ db.users := by simpa using hu
  simp [send_notification, hgoc, hu2, hp2, hp]

/-- When the user is present, the notification resolves, the profile is
found, but the effective channel list is empty, the orchestrator marks the
notification undelivered and returns the no-channels error without touching
the logs. -/
theorem send_notification_no_channels
    (sendFn : String → UserProfile → String → String → Bool × Option String)
    (db : Db) (uid : Nat) (t m : String) (nid : Option Nat)
    (chans : Option (List String)) (notif : Notification) (pr : Nat × UserProfile)
    (hu : db.users.contains uid = true)
    (hn : (_get_or_create_notification db uid t m nid).1 = some notif)
    (hp : db.profiles.find? (fun p => p.1 == uid) = some pr)
    (hne : priorityChannels pr.2 chans = []) :
    send_notification sendFn db uid t m chans nid =
      (setDelivered (_get_or_create_notification db uid t m nid).2 notif.id false,
       Except.ok { status := "error", notification_id := some notif.id, channel := none,
                   message := some "Нет доступных каналов для отправки" }) := by
  have hp2 := (goc_preserves db uid t m nid).2.1
  rcases hgoc : _get_or_create_notification db uid t m nid with ⟨o, db1⟩
  rw [hgoc] at hn hp2
  simp only at hn hp2
  subst hn
  have hu2 : uid ∈ db.users := by simpa using hu
  simp [send_notification, hgoc, hu2, hp2, hp, hne]

/-- If the first `k` channels fail and the channel at index `k` succeeds,
then that channel is the first success and the loop tries exactly the first
`k + 1` channels. -/
theorem firstSuccess_at_index
    (sendFn : String → UserProfile → String → String → Bool × Option String)
    (profile : UserProfile) (t m : String) :
    ∀ (chs : List String) (k : Nat) (hk : k < chs.length),
    (∀ i : Fin chs.length, i.val < k → (sendFn (chs.get i) profile t m).1 = false) →
    (sendFn (chs.get ⟨k, hk⟩) profile t m).1 = true →
    firstSuccess sendFn profile t m chs = some (chs.get ⟨k, hk⟩) ∧
    triedChannels sendFn profile t m chs = chs.take (k + 1) := by
  intro chs
  induction chs with
  | nil =>
    intro k hk
    exact absurd hk (by simp)
  | cons ch rest ih =>
    intro k hk hfail hsucc
    cases k with
    | zero =>
      simp only [List.get] at hsucc
      refine ⟨?_, ?_⟩
      · simp [firstSuccess, hsucc]
      · simp [triedChannels, hsucc]
    | succ j =>
      have h0 : (sendFn ch profile t m).1 = false :=
        hfail ⟨0, by simp⟩ (Nat.succ_pos j)
      have hk2 : j < rest.length := Nat.lt_of_succ_lt_succ (by simpa using hk)
      have hfail2 : ∀ i : Fin rest.length, i.val < j →
          (sendFn (rest.get i) profile t m).1 = false := by
        intro i hi
        have := hfail ⟨i.val + 1, by simp [Nat.succ_lt_succ i.isLt]⟩
          (Nat.succ_lt_succ hi)
        simpa using this
      have hsucc2 : (sendFn (rest.get ⟨j, hk2⟩) profile t m).1 = true := by
        simpa using hsucc
      obtain ⟨h1, h2⟩ := ih j hk2 hfail2 hsucc2
      refine ⟨?_, ?_⟩
      · simp [firstSuccess, h0, h1]
      · simp [triedChannels, h0, h2]

/-- If no channel succeeds, every channel of the list fails. -/
theorem firstSuccess_none_all_fail
    (sendFn : String → UserProfile → String → String → Bool × Option String)
    (profile : UserProfile) (t m : String) (chs : List String)
    (h : firstSuccess sendFn profile t m chs = none) :
    ∀ ch ∈ chs, (sendFn ch profile t m).1 = false := by
  induction chs with
  | nil => simp
  | cons c rest ih =>
    unfold firstSuccess at h
    by_cases hc : (sendFn c profile t m).1 = true
    · simp [hc] at h
    · have hc2 : (sendFn c profile t m).1 = false := by
        revert hc
        cases (sendFn c profile t m).1 <;> simp
      rw [if_neg hc] at h
      intro ch hch
      rcases List.mem_cons.mp hch with rfl | hmem
      · exact hc2
      · exact ih h ch hmem

/-- The first succeeding channel is among the tried channels and its sender
reports success. -/
theorem firstSuccess_some_mem
    (sendFn : String → UserProfile → String → String → Bool × Option String)
    (profile : UserProfile) (t m : String) :
    ∀ (chs : List String) (ch : String),
    firstSuccess sendFn profile t m chs = some ch →
    ch ∈ triedChannels sendFn profile t m chs ∧ (sendFn ch profile t m).1 = true := by
  intro chs
  induction chs with
  | nil => simp [firstSuccess]
  | cons c rest ih =>
    intro ch h
    unfold firstSuccess at h
    unfold triedChannels
    by_cases hc : (sendFn c profile t m).1 = true
    · rw [if_pos hc] at h
      obtain rfl : c = ch := by simpa using h
      simp [hc]
    · rw [if_neg hc] at h
      obtain ⟨hmem, hs⟩ := ih ch h
      refine ⟨?_, hs⟩
      simp [hc, hmem]

/-- The outcome column of the first `k + 1` attempts when the first `k`
channels fail and channel `k` succeeds. -/
theorem take_map_status
    (sendFn : String → UserProfile → String → String → Bool × Option String)
    (profile : UserProfile) (t m : String) :
    ∀ (chs : List String) (k : Nat) (hk : k < chs.length),
    (∀ i : Fin chs.length, i.val < k → (sendFn (chs.get i) profile t m).1 = false) →
    (sendFn (chs.get ⟨k, hk⟩) profile t m).1 = true →
    (chs.take (k + 1)).map (fun ch => (sendFn ch profile t m).1) =
      List.replicate k false ++ [true] := by
  intro chs
  induction chs with
  | nil =>
    intro k hk
    exact absurd hk (by simp)
  | cons ch rest ih =>
    intro k hk hfail hsucc
    cases k with
    | zero =>
      simp only [List.get] at hsucc
      simp [hsucc]
    | succ j =>
      have h0 : (sendFn ch profile t m).1 = false :=
        hfail ⟨0, by simp⟩ (Nat.succ_pos j)
      have hk2 : j < rest.length := Nat.lt_of_succ_lt_succ (by simpa using hk)
      have hfail2 : ∀ i : Fin rest.length, i.val < j →
          (sendFn (rest.get i) profile t m).1 = false := by
        intro i hi
        have := hfail ⟨i.val + 1, by simp [Nat.succ_lt_succ i.isLt]⟩
          (Nat.succ_lt_succ hi)
        simpa using this
      have hsucc2 : (sendFn (rest.get ⟨j, hk2⟩) profile t m).1 = true := by
        simpa using hsucc
      have := ih j hk2 hfail2 hsucc2
      simp [List.take_succ_cons, h0, this, List.replicate_succ]

/-! ## Concrete fixtures for witnesses and counterexamples -/

/-- No channel configured at all. -/
def settingsNone : Settings :=
  { EMAIL_HOST := "", EMAIL_HOST_USER := "", DEFAULT_FROM_EMAIL := "",
    TWILIO_ACCOUNT_SID := "", TWILIO_AUTH_TOKEN := "", TWILIO_PHONE_NUMBER := "",
    TELEGRAM_BOT_TOKEN := "" }

/-- Only the Telegram bot token configured. -/
def settingsTg : Settings :=
  { EMAIL_HOST := "", EMAIL_HOST_USER := "", DEFAULT_FROM_EMAIL := "",
    TWILIO_ACCOUNT_SID := "", TWILIO_AUTH_TOKEN := "", TWILIO_PHONE_NUMBER := "",
    TELEGRAM_BOT_TOKEN := "token123" }

/-- Unconfigured environment with benign transport oracles. -/
def envNone : SendEnv :=
  { settings := settingsNone, mail := .sent, sms := .sent, telegram := .ok }

/-- Telegram-only environment whose Telegram transport acknowledges. -/
def envTg : SendEnv :=
  { settings := settingsTg, mail := .sent, sms := .sent, telegram := .ok }

/-- Profile with an email address only. -/
def profE : UserProfile := { email := "a@b.c", phone_number := "", telegram_chat_id := "" }

/-- Profile with an email address and a Telegram chat id. -/
def profET : UserProfile := { email := "a@b.c", phone_number := "", telegram_chat_id := "42" }

/-- One user (id 1) whose profile is `profE`; empty tables otherwise. -/
def dbE : Db := { users := [1], profiles := [(1, profE)], notifications := [], logs := [], next_id := 1 }

/-- One user (id 1) whose profile is `profET`; empty tables otherwise. -/
def dbET : Db := { users := [1], profiles := [(1, profET)], notifications := [], logs := [], next_id := 1 }

/-! ## Claims -/

/-- C5: `_get_available_channels` (the ChannelSelector) returns channels in
the fixed order email, sms, telegram (a sublist of that fixed sequence); a
channel is a member iff its profile field is non-empty; and when no field is
populated the result is the empty list. Purity and totality hold by
construction: it is a Lean function of the profile alone. -/
theorem selectChannels_order_membership (profile : UserProfile) :
    List.Sublist (_get_available_channels profile)
      [NotificationChannel.EMAIL, NotificationChannel.SMS, NotificationChannel.TELEGRAM] ∧
    (∀ ch, ch ∈ _get_available_channels profile ↔
      ((ch = NotificationChannel.EMAIL ∧ profile.email ≠ "") ∨
       (ch = NotificationChannel.SMS ∧ profile.phone_number ≠ "") ∨
       (ch = NotificationChannel.TELEGRAM ∧ profile.telegram_chat_id ≠ ""))) ∧
    ((profile.email = "" ∧ profile.phone_number = "" ∧ profile.telegram_chat_id = "") →
      _get_available_channels profile = []) := by
  refine ⟨?_, ?_, ?_⟩
  · unfold _get_available_channels
    by_cases h1 : profile.email = "" <;> by_cases h2 : profile.phone_number = "" <;>
      by_cases h3 : profile.telegram_chat_id = "" <;>
      simp [h1, h2, h3]
  · intro ch
    unfold _get_available_channels
    by_cases h1 : profile.email = "" <;> by_cases h2 : profile.phone_number = "" <;>
      by_cases h3 : profile.telegram_chat_id = "" <;>
      simp [h1, h2, h3]
  · intro ⟨h1, h2, h3⟩
    simp [_get_available_channels, h1, h2, h3]

/-- C8: the email sender rejects "not-an-email", "user@@bad" and the absent
address with the invalid-address error, for every configuration and every
transport outcome (so in particular before and independent of any network
call); in general any address that fails the `[^@]+@[^@]+\.[^@]+` pattern is
rejected the same way. -/
theorem email_sender_rejects_invalid :
    (∀ (settings : Settings) (mail : MailOutcome) (t m : String),
      NotificationService.send_email settings mail "not-an-email" t m =
        (false, some "Некорректный email-адрес") ∧
      NotificationService.send_email settings mail "user@@bad" t m =
        (false, some "Некорректный email-адрес") ∧
      NotificationService.send_email settings mail "" t m =
        (false, some "Некорректный email-адрес")) ∧
    (∀ (settings : Settings) (mail : MailOutcome) (email t m : String),
      email_regex_match email = false →
      NotificationService.send_email settings mail email t m =
        (false, some "Некорректный email-адрес")) := by
  have hgen : ∀ (settings : Settings) (mail : MailOutcome) (email t m : String),
      email_regex_match email = false →
      NotificationService.send_email settings mail email t m =
        (false, some "Некорректный email-адрес") := by
    intro settings mail email t m h
    unfold NotificationService.send_email
    rw [if_pos (Or.inr h)]
  refine ⟨?_, hgen⟩
  intro settings mail t m
  refine ⟨hgen _ _ _ _ _ (by decide), hgen _ _ _ _ _ (by decide), hgen _ _ _ _ _ (by decide)⟩

/-- C8 witness: the theorem applied at "user@@bad" with the unconfigured
settings and a succeeding transport. -/
theorem email_sender_rejects_invalid_witness :
    NotificationService.send_email settingsNone .sent "user@@bad" "t" "m" =
      (false, some "Некорректный email-адрес") :=
  (email_sender_rejects_invalid.1 settingsNone .sent "t" "m").2.1

/-- C6: every channel sender returns a structured result for every input and
every transport outcome — success is exactly `(true, none)` and every failure
carries an error text — and (exceptions being impossible at the sender
boundary) the orchestration loop over a resolved notification always
completes with a structured result, logging exactly one attempt for every
channel it tries. -/
theorem senders_structured_loop_total :
    (∀ (settings : Settings) (mail : MailOutcome) (email t m : String),
      NotificationService.send_email settings mail email t m = (true, none) ∨
      ((NotificationService.send_email settings mail email t m).1 = false ∧
       (NotificationService.send_email settings mail email t m).2 ≠ none)) ∧
    (∀ (settings : Settings) (sms : SmsOutcome) (phone m : String),
      NotificationService.send_sms settings sms phone m = (true, none) ∨
      ((NotificationService.send_sms settings sms phone m).1 = false ∧
       (NotificationService.send_sms settings sms phone m).2 ≠ none)) ∧
    (∀ (settings : Settings) (tg : TelegramOutcome) (chat m : String),
      NotificationService.send_telegram settings tg chat m = (true, none) ∨
      ((NotificationService.send_telegram settings tg chat m).1 = false ∧
       (NotificationService.send_telegram settings tg chat m).2 ≠ none)) ∧
    (∀ (sendFn : String → UserProfile → String → String → Bool × Option String)
       (profile : UserProfile) (t m : String) (notif : Notification) (db : Db)
       (chs : List String),
      ∃ res : DispatchResult,
        (sendLoop sendFn profile t m (some notif) db chs).2 = Except.ok res ∧
        (sendLoop sendFn profile t m (some notif) db chs).1.logs =
          db.logs ++ (triedChannels sendFn profile t m chs).map
            (mkLog sendFn profile t m notif.id)) := by
  refine ⟨?_, ?_, ?_, ?_⟩
  · intro settings mail email t m
    unfold NotificationService.send_email
    cases mail <;> split_ifs <;> simp
  · intro settings sms phone m
    unfold NotificationService.send_sms
    cases sms <;>
      by_cases h1 : phone = "" <;>
      by_cases h2 : (phone.data.filter Char.isDigit).length < 10 <;>
      by_cases h3 : settings.TWILIO_ACCOUNT_SID = "" ∨ settings.TWILIO_AUTH_TOKEN = ""
        ∨ settings.TWILIO_PHONE_NUMBER = "" <;>
      simp [h1, h2, h3]
  · intro settings tg chat m
    unfold NotificationService.send_telegram
    cases tg with
    | requestException e => split_ifs <;> simp
    | ok => split_ifs <;> simp
    | notOk d => cases d <;> split_ifs <;> simp
    | exn e => split_ifs <;> simp
  · intro sendFn profile t m notif db chs
    rw [sendLoop_closed]
    cases hfs : firstSuccess sendFn profile t m chs with
    | some ch =>
      exact ⟨_, rfl, by simp [setDelivered, appendLogs]⟩
    | none =>
      exact ⟨_, rfl, by
        simp [setDelivered, appendLogs,
          triedChannels_eq_self sendFn profile t m chs hfs]⟩

/-- C7: for each channel, a missing configuration value (mail host equal to
the placeholder or empty, missing mail user; any of the three Twilio values;
the Telegram token) makes the sender fail with its "not configured" message,
for EVERY transport outcome — i.e. before any network call — provided the
per-channel input validation passed; and a failing channel attempt does not
abort the dispatch: the loop logs it and continues with the remaining
channels. -/
theorem senders_not_configured_fail_fast :
    (∀ (settings : Settings) (mail : MailOutcome) (email t m : String),
      email_regex_match email = true →
      (settings.EMAIL_HOST = "" ∨ settings.EMAIL_HOST = "smtp.example.com" ∨
       settings.EMAIL_HOST_USER = "") →
      NotificationService.send_email settings mail email t m =
        (false, some "Настройки SMTP сервера не настроены")) ∧
    (∀ (settings : Settings) (sms : SmsOutcome) (phone m : String),
      phone ≠ "" → 10 ≤ (phone.data.filter Char.isDigit).length →
      (settings.TWILIO_ACCOUNT_SID = "" ∨ settings.TWILIO_AUTH_TOKEN = "" ∨
       settings.TWILIO_PHONE_NUMBER = "") →
      NotificationService.send_sms settings sms phone m =
        (false, some "Не настроены параметры Twilio SMS-сервиса")) ∧
    (∀ (settings : Settings) (tg : TelegramOutcome) (chat m : String),
      chat ≠ "" → settings.TELEGRAM_BOT_TOKEN = "" →
      NotificationService.send_telegram settings tg chat m =
        (false, some "Не настроен токен Telegram бота")) ∧
    (∀ (sendFn : String → UserProfile → String → String → Bool × Option String)
       (profile : UserProfile) (t m : String) (notif : Notification) (db : Db)
       (ch : String) (rest : List String),
      (sendFn ch profile t m).1 = false →
      sendLoop sendFn profile t m (some notif) db (ch :: rest) =
        sendLoop sendFn profile t m (some notif)
          (appendLogs db [mkLog sendFn profile t m notif.id ch]) rest) := by
  refine ⟨?_, ?_, ?_, ?_⟩
  · intro settings mail email t m hre hcfg
    have hne : ¬(email = "" ∨ email_regex_match email = false) := by
      rintro (rfl | h)
      · exact absurd hre (by decide)
      · rw [hre] at h
        exact absurd h (by decide)
    unfold NotificationService.send_email
    rw [if_neg hne, if_pos hcfg]
  · intro settings sms phone m hp hlen hcfg
    unfold NotificationService.send_sms
    rw [if_neg hp, if_neg (by omega), if_pos hcfg]
  · intro settings tg chat m hc hcfg
    unfold NotificationService.send_telegram
    rw [if_neg hc, if_pos hcfg]
  · intro sendFn profile t m notif db ch rest h
    exact sendLoop_cons_fail sendFn profile t m notif db ch rest h

/-- C7 witness: the Twilio conjunct applied at a 11-digit phone number with
the unconfigured settings, and the loop-continuation conjunct applied at the
resulting failing sms attempt. -/
theorem senders_not_configured_fail_fast_witness :
    NotificationService.send_sms settingsNone .sent "+1 (555) 123-4567" "m" =
      (false, some "Не настроены параметры Twilio SMS-сервиса") ∧
    sendLoop (fun _ _ _ _ => (false, some "x")) profE "t" "m"
        (some { id := 1, user_id := 1, title := "t", message := "m", is_delivered := false })
        dbE ["sms", "email"] =
      sendLoop (fun _ _ _ _ => (false, some "x")) profE "t" "m"
        (some { id := 1, user_id := 1, title := "t", message := "m", is_delivered := false })
        (appendLogs dbE [mkLog (fun _ _ _ _ => (false, some "x")) profE "t" "m" 1 "sms"])
        ["email"] :=
  ⟨senders_not_configured_fail_fast.2.1 settingsNone .sent "+1 (555) 123-4567" "m"
      (by decide) (by decide) (Or.inl rfl),
   senders_not_configured_fail_fast.2.2.2 (fun _ _ _ _ => (false, some "x")) profE "t" "m"
      { id := 1, user_id := 1, title := "t", message := "m", is_delivered := false }
      dbE "sms" ["email"] rfl⟩

/-- C10: a channel string that is none of "email", "sms", "telegram" makes
`_send_by_channel` return the unknown-channel failure (no exception), so the
dispatch loop logs one failed attempt naming that string and continues with
the remaining channels. -/
theorem unknown_channel_logged_and_continue
    (env : SendEnv) (profile : UserProfile) (t m s : String)
    (h1 : s ≠ NotificationChannel.EMAIL) (h2 : s ≠ NotificationChannel.SMS)
    (h3 : s ≠ NotificationChannel.TELEGRAM) :
    _send_by_channel env s profile t m =
      (false, some ("Неизвестный канал отправки: " ++ s)) ∧
    ∀ (notif : Notification) (db : Db) (rest : List String),
      sendLoop (_send_by_channel env) profile t m (some notif) db (s :: rest) =
        sendLoop (_send_by_channel env) profile t m (some notif)
          (appendLogs db
            [{ notification_id := notif.id, channel := s, status := false,
               error_message := some ("Неизвестный канал отправки: " ++ s) }]) rest := by
  have hsend : _send_by_channel env s profile t m =
      (false, some ("Неизвестный канал отправки: " ++ s)) := by
    unfold _send_by_channel
    rw [if_neg h1, if_neg h2, if_neg h3]
  refine ⟨hsend, ?_⟩
  intro notif db rest
  rw [sendLoop_cons_fail (_send_by_channel env) profile t m notif db s rest
    (by rw [hsend])]
  congr 1
  simp [mkLog, hsend]

/-- C10 witness: the theorem applied at the concrete channel string
"pigeon", the telegram-only environment, and a one-element remainder. -/
theorem unknown_channel_logged_and_continue_witness :
    _send_by_channel envTg "pigeon" profET "t" "m" =
      (false, some ("Неизвестный канал отправки: " ++ "pigeon")) ∧
    sendLoop (_send_by_channel envTg) profET "t" "m"
        (some { id := 1, user_id := 1, title := "t", message := "m", is_delivered := false })
        dbET ("pigeon" :: ["telegram"]) =
      sendLoop (_send_by_channel envTg) profET "t" "m"
        (some { id := 1, user_id := 1, title := "t", message := "m", is_delivered := false })
        (appendLogs dbET
          [{ notification_id := 1, channel := "pigeon", status := false,
             error_message := some ("Неизвестный канал отправки: " ++ "pigeon") }])
        ["telegram"] :=
  ⟨(unknown_channel_logged_and_continue envTg profET "t" "m" "pigeon"
      (by decide) (by decide) (by decide)).1,
   (unknown_channel_logged_and_continue envTg profET "t" "m" "pigeon"
      (by decide) (by decide) (by decide)).2
     { id := 1, user_id := 1, title := "t", message := "m", is_delivered := false }
     dbET ["telegram"]⟩

/-- C3: when the user, notification and profile resolve and the channel
list has its first success at index `k` (0-based; position `k + 1` in the
claim's 1-based counting), the dispatch logs exactly the first `k + 1`
attempts — outcomes `false` for the first `k`, `true` for the last — sets
the delivered flag true, and returns a success result naming that channel;
channels after index `k` contribute nothing (only `chs.take (k + 1)` is
logged, so they are never invoked). -/
theorem dispatch_first_success_attempts
    (sendFn : String → UserProfile → String → String → Bool × Option String)
    (db : Db) (uid : Nat) (t m : String) (nid : Option Nat)
    (chs : List String) (k : Nat) (notif : Notification) (pr : Nat × UserProfile)
    (hu : db.users.contains uid = true)
    (hn : (_get_or_create_notification db uid t m nid).1 = some notif)
    (hp : db.profiles.find? (fun p => p.1 == uid) = some pr)
    (hk : k < chs.length)
    (hfail : ∀ i : Fin chs.length, i.val < k → (sendFn (chs.get i) pr.2 t m).1 = false)
    (hsucc : (sendFn (chs.get ⟨k, hk⟩) pr.2 t m).1 = true) :
    send_notification sendFn db uid t m (some chs) nid =
      (setDelivered
        (appendLogs (_get_or_create_notification db uid t m nid).2
          ((chs.take (k + 1)).map (mkLog sendFn pr.2 t m notif.id)))
        notif.id true,
       Except.ok { status := "success", notification_id := some notif.id,
                   channel := some (chs.get ⟨k, hk⟩), message := none }) ∧
    ((chs.take (k + 1)).map (mkLog sendFn pr.2 t m notif.id)).map NotificationLog.status =
      List.replicate k false ++ [true] ∧
    ((chs.take (k + 1)).map (mkLog sendFn pr.2 t m notif.id)).length = k + 1 := by
  have hne : chs ≠ [] := by
    intro h
    rw [h] at hk
    exact absurd hk (by simp)
  have hpc : priorityChannels pr.2 (some chs) = chs := by
    simp [priorityChannels, hne]
  obtain ⟨h1, h2⟩ := firstSuccess_at_index sendFn pr.2 t m chs k hk hfail hsucc
  refine ⟨?_, ?_, ?_⟩
  · rw [send_notification_run sendFn db uid t m nid (some chs) notif pr hu hn hp
      (by rw [hpc]; exact hne), hpc, sendLoop_closed, h1, h2]
  · have := take_map_status sendFn pr.2 t m chs k hk hfail hsucc
    calc ((chs.take (k + 1)).map (mkLog sendFn pr.2 t m notif.id)).map NotificationLog.status
        = (chs.take (k + 1)).map (fun ch => (sendFn ch pr.2 t m).1) := by
          rw [List.map_map]
          rfl
      _ = List.replicate k false ++ [true] := this
  · simp [List.length_take]
    omega

/-- C3 witness: user 1 of `dbET`, explicit list ["email", "telegram"] under
the telegram-only environment: email (index 0) fails as not configured,
telegram (index 1) succeeds. -/
theorem dispatch_first_success_attempts_witness :
    send_notification (_send_by_channel envTg) dbET 1 "t" "m"
        (some ["email", "telegram"]) none =
      (setDelivered
        (appendLogs (_get_or_create_notification dbET 1 "t" "m" none).2
          ((["email", "telegram"].take 2).map (mkLog (_send_by_channel envTg) profET "t" "m" 1)))
        1 true,
       Except.ok { status := "success", notification_id := some 1,
                   channel := some "telegram", message := none }) :=
  (dispatch_first_success_attempts (_send_by_channel envTg) dbET 1 "t" "m" none
    ["email", "telegram"] 1
    { id := 1, user_id := 1, title := "t", message := "m", is_delivered := false }
    (1, profET) rfl rfl rfl (by decide) (by decide) (by decide)).1

/-- C4: when the user, notification and profile resolve, the channel list is
non-empty and every channel sender reports failure, the dispatch logs
exactly one attempt per channel in the list (each with outcome false), sets
the delivered flag false, and returns the all-channels-failed error
result. -/
theorem dispatch_all_channels_fail
    (sendFn : String → UserProfile → String → String → Bool × Option String)
    (db : Db) (uid : Nat) (t m : String) (nid : Option Nat)
    (chs : List String) (notif : Notification) (pr : Nat × UserProfile)
    (hu : db.users.contains uid = true)
    (hn : (_get_or_create_notification db uid t m nid).1 = some notif)
    (hp : db.profiles.find? (fun p => p.1 == uid) = some pr)
    (hne : chs ≠ [])
    (hfail : ∀ ch ∈ chs, (sendFn ch pr.2 t m).1 = false) :
    send_notification sendFn db uid t m (some chs) nid =
      (setDelivered
        (appendLogs (_get_or_create_notification db uid t m nid).2
          (chs.map (mkLog sendFn pr.2 t m notif.id)))
        notif.id false,
       Except.ok { status := "error", notification_id := some notif.id, channel := none,
                   message := some "Не удалось доставить ни по одному каналу" }) ∧
    (chs.map (mkLog sendFn pr.2 t m notif.id)).length = chs.length ∧
    ∀ l ∈ chs.map (mkLog sendFn pr.2 t m notif.id), l.status = false := by
  have hpc : priorityChannels pr.2 (some chs) = chs := by
    simp [priorityChannels, hne]
  refine ⟨?_, by simp, ?_⟩
  · rw [send_notification_run sendFn db uid t m nid (some chs) notif pr hu hn hp
      (by rw [hpc]; exact hne), hpc, sendLoop_closed,
      firstSuccess_eq_none sendFn pr.2 t m chs hfail]
  · intro l hl
    obtain ⟨ch, hch, rfl⟩ := List.mem_map.mp hl
    simpa [mkLog] using hfail ch hch

/-- C4 witness: user 1 of `dbE`, explicit list ["email"] under the fully
unconfigured environment: the single channel fails. -/
theorem dispatch_all_channels_fail_witness :
    send_notification (_send_by_channel envNone) dbE 1 "t" "m" (some ["email"]) none =
      (setDelivered
        (appendLogs (_get_or_create_notification dbE 1 "t" "m" none).2
          (["email"].map (mkLog (_send_by_channel envNone) profE "t" "m" 1)))
        1 false,
       Except.ok { status := "error", notification_id := some 1, channel := none,
                   message := some "Не удалось доставить ни по одному каналу" }) :=
  (dispatch_all_channels_fail (_send_by_channel envNone) dbE 1 "t" "m" none
    ["email"]
    { id := 1, user_id := 1, title := "t", message := "m", is_delivered := false }
    (1, profE) rfl rfl rfl (by decide) (by decide)).1

/-- After the delivery loop over a resolved notification, the stored
delivered flag is true exactly when one of the freshly appended attempt rows
has outcome true. -/
theorem sendLoop_delivered_iff
    (sendFn : String → UserProfile → String → String → Bool × Option String)
    (profile : UserProfile) (t m : String) (notif : Notification)
    (db1 : Db) (pl : List String) (db2 : Db) (r : DispatchResult)
    (hmem : notif ∈ db1.notifications)
    (hrun : sendLoop sendFn profile t m (some notif) db1 pl = (db2, Except.ok r)) :
    ∃ n : Notification,
      db2.notifications.find? (fun x => x.id == notif.id) = some n ∧
      (n.is_delivered = true ↔ ∃ l ∈ db2.logs.drop db1.logs.length, l.status = true) := by
  rw [sendLoop_closed] at hrun
  cases hfs : firstSuccess sendFn profile t m pl with
  | some ch =>
    rw [hfs] at hrun
    have hdb2 : setDelivered
        (appendLogs db1 ((triedChannels sendFn profile t m pl).map
          (mkLog sendFn profile t m notif.id))) notif.id true = db2 := by
      exact congrArg Prod.fst hrun
    subst hdb2
    obtain ⟨n, hfind, hv⟩ := find_setFlag
      (appendLogs db1 ((triedChannels sendFn profile t m pl).map
        (mkLog sendFn profile t m notif.id))).notifications notif.id true
      ⟨notif, hmem, rfl⟩
    refine ⟨n, hfind, ?_⟩
    rw [hv]
    obtain ⟨hchmem, hchsucc⟩ := firstSuccess_some_mem sendFn profile t m pl ch hfs
    simp only [setDelivered, appendLogs, List.drop_left]
    constructor
    · intro _
      exact ⟨mkLog sendFn profile t m notif.id ch, List.mem_map_of_mem _ hchmem,
        by simpa [mkLog] using hchsucc⟩
    · intro _
      trivial
  | none =>
    rw [hfs] at hrun
    have hdb2 : setDelivered
        (appendLogs db1 (pl.map (mkLog sendFn profile t m notif.id))) notif.id false = db2 := by
      exact congrArg Prod.fst hrun
    subst hdb2
    obtain ⟨n, hfind, hv⟩ := find_setFlag
      (appendLogs db1 (pl.map (mkLog sendFn profile t m notif.id))).notifications notif.id false
      ⟨notif, hmem, rfl⟩
    refine ⟨n, hfind, ?_⟩
    rw [hv]
    have hall := firstSuccess_none_all_fail sendFn profile t m pl hfs
    simp only [setDelivered, appendLogs, List.drop_left]
    constructor
    · intro h
      exact absurd h (by simp)
    · rintro ⟨l, hl, hs⟩
      obtain ⟨ch, hch, rfl⟩ := List.mem_map.mp hl
      rw [show (mkLog sendFn profile t m notif.id ch).status =
        (sendFn ch profile t m).1 from rfl, hall ch hch] at hs
      exact absurd hs (by simp)

/-- C9: after any completed (non-raising) dispatch run whose notification
resolved, the stored delivered flag is true iff at least one of the
`NotificationLog` rows appended during that run has outcome true; every
completed path that logs no successful attempt (profile missing, empty
channel list, all channels failed) leaves the flag false. -/
theorem dispatch_delivered_iff_logged_success
    (sendFn : String → UserProfile → String → String → Bool × Option String)
    (db : Db) (uid : Nat) (t m : String) (chans : Option (List String))
    (nid : Option Nat) (notif : Notification) (db2 : Db) (r : DispatchResult)
    (hu : db.users.contains uid = true)
    (hn : (_get_or_create_notification db uid t m nid).1 = some notif)
    (hrun : send_notification sendFn db uid t m chans nid = (db2, Except.ok r)) :
    ∃ n : Notification,
      db2.notifications.find? (fun x => x.id == notif.id) = some n ∧
      (n.is_delivered = true ↔ ∃ l ∈ db2.logs.drop db.logs.length, l.status = true) := by
  have hpres := goc_preserves db uid t m nid
  have hmem := goc_mem db uid t m nid notif hn
  cases hpf : db.profiles.find? (fun p => p.1 == uid) with
  | none =>
    rw [send_notification_no_profile sendFn db uid t m nid chans notif hu hn hpf] at hrun
    have hdb2 : setDelivered (_get_or_create_notification db uid t m nid).2 notif.id false
        = db2 := congrArg Prod.fst hrun
    subst hdb2
    obtain ⟨n, hfind, hv⟩ := find_setFlag
      (_get_or_create_notification db uid t m nid).2.notifications notif.id false
      ⟨notif, hmem, rfl⟩
    refine ⟨n, hfind, ?_⟩
    rw [hv]
    simp [setDelivered, hpres.2.2]
  | some p =>
    by_cases hpe : priorityChannels p.2 chans = []
    · rw [send_notification_no_channels sendFn db uid t m nid chans notif p hu hn hpf hpe]
        at hrun
      have hdb2 : setDelivered (_get_or_create_notification db uid t m nid).2 notif.id false
          = db2 := congrArg Prod.fst hrun
      subst hdb2
      obtain ⟨n, hfind, hv⟩ := find_setFlag
        (_get_or_create_notification db uid t m nid).2.notifications notif.id false
        ⟨notif, hmem, rfl⟩
      refine ⟨n, hfind, ?_⟩
      rw [hv]
      simp [setDelivered, hpres.2.2]
    · rw [send_notification_run sendFn db uid t m nid chans notif p hu hn hpf hpe] at hrun
      have := sendLoop_delivered_iff sendFn p.2 t m notif
        (_get_or_create_notification db uid t m nid).2 (priorityChannels p.2 chans)
        db2 r hmem hrun
      rwa [hpres.2.2] at this

/-- C9 witness: user 1 of `dbET` under the telegram-only environment with
auto-selected channels (email fails, telegram succeeds): the stored flag and
the successful appended row exist as the theorem states. -/
theorem dispatch_delivered_iff_logged_success_witness :
    ∃ n : Notification,
      ((send_notification (_send_by_channel envTg) dbET 1 "t" "m" none none).1).notifications.find?
        (fun x => x.id == 1) = some n ∧
      (n.is_delivered = true ↔
        ∃ l ∈ ((send_notification (_send_by_channel envTg) dbET 1 "t" "m" none none).1).logs.drop
          dbET.logs.length, l.status = true) :=
  dispatch_delivered_iff_logged_success (_send_by_channel envTg) dbET 1 "t" "m" none none
    { id := 1, user_id := 1, title := "t", message := "m", is_delivered := false }
    (send_notification (_send_by_channel envTg) dbET 1 "t" "m" none none).1
    { status := "success", notification_id := some 1, channel := some "telegram",
      message := none }
    rfl rfl (by rfl)

/-- C1 counterexample: user 1 of `dbE` has a populated email field; dispatch
with the EXPLICITLY EMPTY channel list `some []` does not return the
no-channels error with zero attempts — it auto-selects ["email"], logs one
(failed) attempt, and returns the all-channels-failed error, because
`channels or _get_available_channels(profile)` treats `[]` as falsy. -/
theorem explicit_empty_list_not_preserved_cex :
    (send_notification (_send_by_channel envNone) dbE 1 "t" "m" (some []) none).2 =
      Except.ok { status := "error", notification_id := some 1, channel := none,
                  message := some "Не удалось доставить ни по одному каналу" } ∧
    (send_notification (_send_by_channel envNone) dbE 1 "t" "m" (some []) none).2 ≠
      Except.ok { status := "error", notification_id := some 1, channel := none,
                  message := some "Нет доступных каналов для отправки" } ∧
    (send_notification (_send_by_channel envNone) dbE 1 "t" "m" (some []) none).1.logs.length
      = 1 := by
  refine ⟨rfl, ?_, rfl⟩
  intro h
  rw [show (send_notification (_send_by_channel envNone) dbE 1 "t" "m" (some []) none).2 =
    Except.ok { status := "error", notification_id := some 1, channel := none,
                message := some "Не удалось доставить ни по одному каналу" } from rfl] at h
  simp at h

/-- C1 amended: an explicitly empty channel list IS replaced by the
auto-selected channels — `some []` behaves exactly like `none` in every
dispatch call (Python `or` treats the empty list as absent). -/
theorem dispatch_empty_explicit_list_auto_selects
    (sendFn : String → UserProfile → String → String → Bool × Option String)
    (db : Db) (uid : Nat) (t m : String) (nid : Option Nat) :
    send_notification sendFn db uid t m (some []) nid =
      send_notification sendFn db uid t m none nid := rfl

/-- C2: dispatch with an explicit notificationId (5) that resolves to no
Notification, on a user whose profile has an available channel. The code
does NOT return a structured error result: `_get_or_create_notification`
returns `None`, the loop's `NotificationLog.objects.create(notification=None)`
violates the non-null foreign key, and the uncaught exception propagates.
No new Notification is created and no attempt row is logged (the database is
returned unchanged), matching those parts of the claim. -/
theorem dispatch_unresolved_notification_id_raises :
    send_notification (_send_by_channel envNone) dbE 1 "t" "m" none (some 5) =
      (dbE, Except.error PyException.integrityError) ∧
    dbE.notifications = [] ∧ dbE.logs = [] :=
  ⟨rfl, rfl, rfl⟩

end Notify
